import Mathlib

/-
Verification of the interactive configuration helpers and the LlamaConfig
validator of the azor-chatdog repository.

Modelling conventions (shallow embedding of the Python source):

- A console input line (the result of one call to the builtin input) is a
  Line, a list of characters.  The whole input stream is a List Line.  The
  retry loops of the source have no bound, so a run is modelled as a
  function from the remaining input stream to an optional result: none
  means the stream was exhausted while the loop was still asking (the real
  program would block forever waiting for more input).
- Python float and int values are modelled as exact rationals and integers.
  The numeric-literal parsers below model the builtin float(...) and
  int(...) conversions on the stripped answer (decimal literals with
  optional sign, decimal point and exponent; the inf and nan spellings and
  digit-group underscores accepted by Python are not modelled, no claim
  involves them).
- console.print_info and console.print_error are external sinks.  Error
  messages are observable in the claims, so every run also returns the list
  of print_error events, as an ErrMsg value carrying the data interpolated
  into the Python message.  print_info output is not modelled.
- The filesystem is a parameter fs : Line -> Bool giving the result of
  os.path.exists for each path, constant over one call.
-/

/-- One console input line, as the sequence of its characters. -/
abbrev Line := List Char

/-- The characters removed by the Python str.strip() default
whitespace set (ASCII part). -/
def isPySpace (c : Char) : Bool :=
  c == ' ' || c == '\t' || c == '\n' || c == '\r' || c == '\x0b' || c == '\x0c'

/-- Python str.strip(): drop leading and trailing whitespace. -/
def pyStrip (s : Line) : Line :=
  ((s.dropWhile isPySpace).reverse.dropWhile isPySpace).reverse

/-- Python str.lower() on the ASCII letters appearing in the source tokens. -/
def pyLower (s : Line) : Line :=
  s.map Char.toLower

/-- All characters are decimal digits. -/
def allDigits (s : Line) : Bool :=
  s.all Char.isDigit

/-- Numeric value of a digit string (most significant first). -/
def digitsVal (s : Line) : Nat :=
  s.foldl (fun a c => 10 * a + (c.toNat - 48)) 0

/-- Split an optional leading sign off a numeric literal; the Bool is
true when the literal is negated. -/
def stripSign : Line → Bool × Line
  | '-' :: t => (true, t)
  | '+' :: t => (false, t)
  | s => (false, s)

/-- Python int(answer) on an already stripped answer: an optional sign
followed by a nonempty digit string. -/
def pyInt? (s : Line) : Option Int :=
  let p := stripSign s
  if p.2 ≠ [] ∧ allDigits p.2 then
    some (if p.1 then -(digitsVal p.2 : Int) else (digitsVal p.2 : Int))
  else none

/-- Exact value of a decimal literal: sign, integer digits, fraction
digits and a base-ten exponent.  The mantissa digits give the integer
digitsVal ip * 10 ^ fp.length + digitsVal fp over the denominator
10 ^ fp.length, and the exponent scales by a further power of ten. -/
def floatVal (neg : Bool) (ip fp : Line) (e : Int) : ℚ :=
  let mn : ℕ := digitsVal ip * 10 ^ fp.length + digitsVal fp
  let sn : ℤ := if neg then -(mn : ℤ) else (mn : ℤ)
  match e with
  | .ofNat k => mkRat (sn * ((10 ^ k : ℕ) : ℤ)) (10 ^ fp.length)
  | .negSucc k => mkRat sn (10 ^ fp.length * 10 ^ (k + 1))

/-- Parse the digits of an exponent part (after the e), with its own
optional sign. -/
def expVal? (s : Line) : Option Int :=
  let p := stripSign s
  if p.2 ≠ [] ∧ allDigits p.2 then
    some (if p.1 then -(digitsVal p.2 : Int) else (digitsVal p.2 : Int))
  else none

/-- Python float(answer) on an already stripped answer: an optional sign,
then digits with an optional decimal point (at least one digit), then an
optional exponent part. -/
def pyFloat? (s : Line) : Option ℚ :=
  let p := stripSign s
  let q := p.2.span (fun c => !(c == 'e' || c == 'E'))
  let r := q.1.span (fun c => !(c == '.'))
  let ip := r.1
  let fp := match r.2 with
    | [] => []
    | _ :: t => t
  if allDigits ip ∧ allDigits fp ∧ (ip ≠ [] ∨ fp ≠ []) then
    match q.2 with
    | [] => some (floatVal p.1 ip fp 0)
    | _ :: t =>
      match expVal? t with
      | some e => some (floatVal p.1 ip fp e)
      | none => none
  else none

/-- One print_error event, as the constructor for the Python message with
the interpolated data as arguments.  The print_info sink is not modelled. -/
inductive ErrMsg where
  /-- Message asking to answer t (tak) or n (nie), from ask_yes_no. -/
  | answerTorN : ErrMsg
  /-- Message that the value must be between min_val and max_val,
  from ask_float. -/
  | valueBetween (lo hi : ℚ) : ErrMsg
  /-- Message asking for a well-formed number, from ask_float. -/
  | invalidNumber : ErrMsg
  /-- Message that the value must be at least min_val, from ask_int. -/
  | valueAtLeast (lo : Int) : ErrMsg
  /-- Message asking for a well-formed integer, from ask_int. -/
  | invalidInteger : ErrMsg
  /-- Warning that no model of the catalog was found on disk,
  from ask_for_model_choice. -/
  | noModelsFound : ErrMsg
  /-- Message naming a catalog model file that does not exist,
  from ask_for_model_choice. -/
  | modelMissing (path : Line) : ErrMsg
  /-- Message asking to download the missing model first,
  from ask_for_model_choice. -/
  | downloadFirst : ErrMsg
  /-- Generic invalid-choice message of ask_for_model_choice. -/
  | invalidChoice : ErrMsg
deriving DecidableEq

/-- ask_yes_no(question, default) of interactive_config.py.  Consumes
lines until one answers the question; returns the print_error events and,
unless the stream runs out, the Boolean answer with the unread rest of the
stream. -/
def ask_yes_no (question : String) (default : Bool) :
    List Line → List ErrMsg × Option (Bool × List Line)
  | [] => ([], none)
  | line :: rest =>
    let answer := pyLower (pyStrip line)
    if answer = [] then ([], some (default, rest))
    else if answer = ['t'] ∨ answer = ['t', 'a', 'k'] ∨
        answer = ['y'] ∨ answer = ['y', 'e', 's'] then
      ([], some (true, rest))
    else if answer = ['n'] ∨ answer = ['n', 'i', 'e'] ∨
        answer = ['n', 'o'] then
      ([], some (false, rest))
    else
      let r := ask_yes_no question default rest
      (ErrMsg.answerTorN :: r.1, r.2)

/-- ask_float(question, default, min_val, max_val) of
interactive_config.py. -/
def ask_float (question : String) (default : ℚ) (min_val max_val : ℚ) :
    List Line → List ErrMsg × Option (ℚ × List Line)
  | [] => ([], none)
  | line :: rest =>
    let answer := pyStrip line
    if answer = [] then ([], some (default, rest))
    else
      match pyFloat? answer with
      | some value =>
        if min_val ≤ value ∧ value ≤ max_val then ([], some (value, rest))
        else
          let r := ask_float question default min_val max_val rest
          (ErrMsg.valueBetween min_val max_val :: r.1, r.2)
      | none =>
        let r := ask_float question default min_val max_val rest
        (ErrMsg.invalidNumber :: r.1, r.2)

/-- ask_int(question, default, min_val) of interactive_config.py. -/
def ask_int (question : String) (default : Int) (min_val : Int) :
    List Line → List ErrMsg × Option (Int × List Line)
  | [] => ([], none)
  | line :: rest =>
    let answer := pyStrip line
    if answer = [] then ([], some (default, rest))
    else
      match pyInt? answer with
      | some value =>
        if min_val ≤ value then ([], some (value, rest))
        else
          let r := ask_int question default min_val rest
          (ErrMsg.valueAtLeast min_val :: r.1, r.2)
      | none =>
        let r := ask_int question default min_val rest
        (ErrMsg.invalidInteger :: r.1, r.2)

/-- The record returned by ask_for_generation_params: the dict with the
temperature, top_p and top_k keys. -/
structure GenParams where
  temperature : ℚ
  top_p : ℚ
  top_k : ℤ
deriving DecidableEq

/-- The question of the configure gate of ask_for_generation_params. -/
def gateQuestion : String := "\nCzy chcesz skonfigurować parametry generowania?"

/-- The question of the temperature prompt. -/
def temperatureQuestion : String := "\n🌡️  Temperature (kreatywność)"

/-- The question of the top_p prompt. -/
def topPQuestion : String := "🎯 Top P (nucleus sampling)"

/-- The question of the top_k prompt. -/
def topKQuestion : String := "🔢 Top K (liczba tokenów, 0=wyłączone)"

/-- ask_for_generation_params(current_temp, current_top_p, current_top_k)
of interactive_config.py.  A yes/no gate (default False) decides whether
to configure; declining returns the three current values unchanged, else
the three bounded prompts run in order and their results are returned. -/
def ask_for_generation_params (current_temp current_top_p : ℚ)
    (current_top_k : ℤ) (input : List Line) :
    List ErrMsg × Option (GenParams × List Line) :=
  match ask_yes_no gateQuestion false input with
  | (o0, none) => (o0, none)
  | (o0, some (configure, r0)) =>
    if !configure then
      (o0, some (⟨current_temp, current_top_p, current_top_k⟩, r0))
    else
      match ask_float temperatureQuestion current_temp 0 2 r0 with
      | (o1, none) => (o0 ++ o1, none)
      | (o1, some (temperature, r1)) =>
        match ask_float topPQuestion current_top_p 0 1 r1 with
        | (o2, none) => (o0 ++ o1 ++ o2, none)
        | (o2, some (top_p, r2)) =>
          match ask_int topKQuestion current_top_k 0 r2 with
          | (o3, none) => (o0 ++ o1 ++ o2 ++ o3, none)
          | (o3, some (top_k, r3)) =>
            (o0 ++ o1 ++ o2 ++ o3, some (⟨temperature, top_p, top_k⟩, r3))

/-- One entry of the hardcoded model catalog of ask_for_model_choice. -/
structure ModelInfo where
  name : Line
  path : Line
  size : String
  speed : String
  quality : String
deriving DecidableEq

/-- os.path.expanduser: a leading tilde is replaced by the home
directory. -/
def expanduser (home : Line) : Line → Line
  | '~' :: rest => home ++ rest
  | p => p

/-- The models dict of ask_for_model_choice: three hardcoded entries
keyed by the digit strings 1, 2 and 3, in insertion order. -/
def models (home : Line) : List (Line × ModelInfo) :=
  [ (['1'],
      ⟨"Gemma 3 1B Q4_K_M".toList,
        expanduser home "~/Library/Caches/llama.cpp/ggml-org_gemma-3-1b-it-GGUF_gemma-3-1b-it-Q4_K_M.gguf".toList,
        "~600MB RAM", "⚡⚡⚡ Bardzo szybki", "⭐⭐⭐ Dobra jakość"⟩),
    (['2'],
      ⟨"Gemma 2 2B Q8_0".toList,
        expanduser home "~/models/gemma-2-2b-it-Q8_0.gguf".toList,
        "~2.3GB RAM", "⚡⚡ Szybki", "⭐⭐⭐⭐ Bardzo dobra jakość"⟩),
    (['3'],
      ⟨"Llama 3.1 8B Q4_K_M".toList,
        expanduser home "~/models/Meta-Llama-3.1-8B-Instruct-Q4_K_M.gguf".toList,
        "~5GB RAM", "⚡ Wolniejszy", "⭐⭐⭐⭐⭐ Najlepsza jakość"⟩) ]

/-- The while-True choice loop at the end of ask_for_model_choice, over
the full dict ms and the filtered dict avail.  A stripped 0 returns the
no-selection value, an available key returns its (path, name) pair, and
any other token prints its diagnostic and reads the next line. -/
def choice_loop (fs : Line → Bool) (ms avail : List (Line × ModelInfo)) :
    List Line → List ErrMsg × Option (Option (Line × Line) × List Line)
  | [] => ([], none)
  | line :: rest =>
    let choice := pyStrip line
    if choice = ['0'] then ([], some (none, rest))
    else
      match avail.lookup choice with
      | some selected => ([], some (some (selected.path, selected.name), rest))
      | none =>
        let errs :=
          match ms.lookup choice with
          | some m =>
            if !(fs m.path) then [ErrMsg.modelMissing m.path, ErrMsg.downloadFirst]
            else [ErrMsg.invalidChoice]
          | none => [ErrMsg.invalidChoice]
        let r := choice_loop fs ms avail rest
        (errs ++ r.1, r.2)

/-- ask_for_model_choice() of interactive_config.py, with the home
directory and the filesystem as parameters.  Returns the print_error
events and, unless the loop was reached and the stream ran out, the
optional (model_path, model_name) selection with the unread input. -/
def ask_for_model_choice (fs : Line → Bool) (home : Line)
    (input : List Line) :
    List ErrMsg × Option (Option (Line × Line) × List Line) :=
  let ms := models home
  let avail := ms.filter (fun kv => fs kv.2.path)
  if avail.isEmpty then ([ErrMsg.noModelsFound], some (none, input))
  else choice_loop fs ms avail input

/-- The ValueError raised by a failed LlamaConfig validation, as the
constructor for the pydantic message with its interpolated data. -/
inductive ValErr where
  /-- The model file does not exist (message naming the path). -/
  | fileDoesNotExist (path : Line) : ValErr
  /-- The model file does not have the .gguf extension. -/
  | notGguf : ValErr
  /-- llama_gpu_layers fails its ge -1 bound. -/
  | gpuLayersTooSmall : ValErr
  /-- llama_context_size fails its ge 1 bound. -/
  | contextSizeTooSmall : ValErr
  /-- llama_temperature fails its 0.0 to 2.0 bounds. -/
  | temperatureOutOfRange : ValErr
  /-- llama_top_p fails its 0.0 to 1.0 bounds. -/
  | topPOutOfRange : ValErr
  /-- llama_top_k fails its ge 0 bound. -/
  | topKTooSmall : ValErr
deriving DecidableEq

/-- The validated LlamaConfig record of llama_validation.py. -/
structure LlamaConfig where
  engine : Line
  model_name : Line
  llama_model_path : Line
  llama_gpu_layers : ℤ
  llama_context_size : ℤ
  llama_temperature : ℚ
  llama_top_p : ℚ
  llama_top_k : ℤ
deriving DecidableEq

/-- The validate_model_path validator of LlamaConfig: existence first,
then the .gguf suffix, then the unchanged value. -/
def validate_model_path (fs : Line → Bool) (v : Line) : Except ValErr Line :=
  if !(fs v) then .error (.fileDoesNotExist v)
  else if !(List.isSuffixOf ['.', 'g', 'g', 'u', 'f'] v) then .error .notGguf
  else .ok v

/-- Constructing a LlamaConfig from field values: every field constraint
of the pydantic schema is checked in field order, the path by
validate_model_path, and only when all checks pass is the record
produced (the engine literal is the fixed LLAMA tag; the source defaults,
unused here, are gpu_layers 1, context_size 2048, temperature 0.7,
top_p 0.9 and top_k 40). -/
def mkLlamaConfig (fs : Line → Bool) (model_name llama_model_path : Line)
    (llama_gpu_layers llama_context_size : ℤ)
    (llama_temperature llama_top_p : ℚ) (llama_top_k : ℤ) :
    Except ValErr LlamaConfig :=
  match validate_model_path fs llama_model_path with
  | .error e => .error e
  | .ok p =>
    if llama_gpu_layers < -1 then .error .gpuLayersTooSmall
    else if llama_context_size < 1 then .error .contextSizeTooSmall
    else if llama_temperature < 0 ∨ 2 < llama_temperature then
      .error .temperatureOutOfRange
    else if llama_top_p < 0 ∨ 1 < llama_top_p then .error .topPOutOfRange
    else if llama_top_k < 0 then .error .topKTooSmall
    else .ok ⟨"LLAMA".toList, model_name, p, llama_gpu_layers,
      llama_context_size, llama_temperature, llama_top_p, llama_top_k⟩

instance {ε α : Type} [DecidableEq ε] [DecidableEq α] :
    DecidableEq (Except ε α) := fun a b =>
  match a, b with
  | .error e, .error f => decidable_of_iff (e = f) (by simp)
  | .error _, .ok _ => .isFalse (by simp)
  | .ok _, .error _ => .isFalse (by simp)
  | .ok a, .ok b => decidable_of_iff (a = b) (by simp)

/-- Construction succeeded: a LlamaConfig record was produced. -/
def accepted (r : Except ValErr LlamaConfig) : Bool :=
  match r with
  | .ok _ => true
  | .error _ => false

theorem pyLower_eq_nil {l : Line} : pyLower l = [] ↔ l = [] := by
  simp [pyLower]

theorem ask_yes_no_cons_empty (q : String) (d : Bool) (l : Line)
    (rest : List Line) (h : pyStrip l = []) :
    ask_yes_no q d (l :: rest) = ([], some (d, rest)) := by
  simp [ask_yes_no, h, pyLower]

theorem ask_yes_no_cons_yes (q : String) (d : Bool) (l : Line)
    (rest : List Line)
    (h : pyLower (pyStrip l) = ['t'] ∨ pyLower (pyStrip l) = ['t', 'a', 'k'] ∨
      pyLower (pyStrip l) = ['y'] ∨ pyLower (pyStrip l) = ['y', 'e', 's']) :
    ask_yes_no q d (l :: rest) = ([], some (true, rest)) := by
  rcases h with h | h | h | h <;> simp [ask_yes_no, h]

theorem ask_yes_no_cons_no (q : String) (d : Bool) (l : Line)
    (rest : List Line)
    (h : pyLower (pyStrip l) = ['n'] ∨ pyLower (pyStrip l) = ['n', 'i', 'e'] ∨
      pyLower (pyStrip l) = ['n', 'o']) :
    ask_yes_no q d (l :: rest) = ([], some (false, rest)) := by
  rcases h with h | h | h <;> simp [ask_yes_no, h]

theorem ask_yes_no_cons_other (q : String) (d : Bool) (l : Line)
    (rest : List Line) (h0 : pyStrip l ≠ [])
    (h1 : pyLower (pyStrip l) ≠ ['t']) (h2 : pyLower (pyStrip l) ≠ ['t', 'a', 'k'])
    (h3 : pyLower (pyStrip l) ≠ ['y']) (h4 : pyLower (pyStrip l) ≠ ['y', 'e', 's'])
    (h5 : pyLower (pyStrip l) ≠ ['n']) (h6 : pyLower (pyStrip l) ≠ ['n', 'i', 'e'])
    (h7 : pyLower (pyStrip l) ≠ ['n', 'o']) :
    ask_yes_no q d (l :: rest) =
      (ErrMsg.answerTorN :: (ask_yes_no q d rest).1, (ask_yes_no q d rest).2) := by
  have h0' : pyLower (pyStrip l) ≠ [] := fun hh => h0 (pyLower_eq_nil.mp hh)
  simp [ask_yes_no, h0', h1, h2, h3, h4, h5, h6, h7]

theorem ask_float_cons_empty (q : String) (d lo hi : ℚ) (l : Line)
    (rest : List Line) (h : pyStrip l = []) :
    ask_float q d lo hi (l :: rest) = ([], some (d, rest)) := by
  simp [ask_float, h]

theorem ask_float_cons_valid (q : String) (d lo hi v : ℚ) (l : Line)
    (rest : List Line) (h0 : pyStrip l ≠ [])
    (hp : pyFloat? (pyStrip l) = some v) (h1 : lo ≤ v) (h2 : v ≤ hi) :
    ask_float q d lo hi (l :: rest) = ([], some (v, rest)) := by
  simp [ask_float, h0, hp, h1, h2]

theorem ask_float_cons_range (q : String) (d lo hi v : ℚ) (l : Line)
    (rest : List Line) (h0 : pyStrip l ≠ [])
    (hp : pyFloat? (pyStrip l) = some v) (hr : ¬(lo ≤ v ∧ v ≤ hi)) :
    ask_float q d lo hi (l :: rest) =
      (ErrMsg.valueBetween lo hi :: (ask_float q d lo hi rest).1,
        (ask_float q d lo hi rest).2) := by
  simp [ask_float, h0, hp, hr]

theorem ask_float_cons_nonnum (q : String) (d lo hi : ℚ) (l : Line)
    (rest : List Line) (h0 : pyStrip l ≠ [])
    (hp : pyFloat? (pyStrip l) = none) :
    ask_float q d lo hi (l :: rest) =
      (ErrMsg.invalidNumber :: (ask_float q d lo hi rest).1,
        (ask_float q d lo hi rest).2) := by
  simp [ask_float, h0, hp]

theorem ask_int_cons_empty (q : String) (d mi : ℤ) (l : Line)
    (rest : List Line) (h : pyStrip l = []) :
    ask_int q d mi (l :: rest) = ([], some (d, rest)) := by
  simp [ask_int, h]

theorem ask_int_cons_valid (q : String) (d mi v : ℤ) (l : Line)
    (rest : List Line) (h0 : pyStrip l ≠ [])
    (hp : pyInt? (pyStrip l) = some v) (h1 : mi ≤ v) :
    ask_int q d mi (l :: rest) = ([], some (v, rest)) := by
  simp [ask_int, h0, hp, h1]

theorem ask_int_cons_range (q : String) (d mi v : ℤ) (l : Line)
    (rest : List Line) (h0 : pyStrip l ≠ [])
    (hp : pyInt? (pyStrip l) = some v) (hr : ¬ mi ≤ v) :
    ask_int q d mi (l :: rest) =
      (ErrMsg.valueAtLeast mi :: (ask_int q d mi rest).1,
        (ask_int q d mi rest).2) := by
  simp [ask_int, h0, hp, hr]

theorem ask_int_cons_nonnum (q : String) (d mi : ℤ) (l : Line)
    (rest : List Line) (h0 : pyStrip l ≠ [])
    (hp : pyInt? (pyStrip l) = none) :
    ask_int q d mi (l :: rest) =
      (ErrMsg.invalidInteger :: (ask_int q d mi rest).1,
        (ask_int q d mi rest).2) := by
  simp [ask_int, h0, hp]

theorem dropWhile_append_all {p : Char → Bool} {a : Line} (b : Line)
    (h : a.all p = true) : (a ++ b).dropWhile p = b.dropWhile p := by
  induction a with
  | nil => rfl
  | cons c t ih =>
    simp only [List.all_cons, Bool.and_eq_true] at h
    simp [List.dropWhile_cons, h.1, ih h.2]

theorem dropWhile_append_ne_nil {p : Char → Bool} {a : Line} (b : Line)
    (h : a.dropWhile p ≠ []) :
    (a ++ b).dropWhile p = a.dropWhile p ++ b := by
  induction a with
  | nil => simp at h
  | cons c t ih =>
    by_cases hc : p c
    · simp only [List.cons_append, List.dropWhile_cons, hc, if_true] at h ⊢
      exact ih h
    · simp [List.dropWhile_cons, hc]

theorem pyStrip_all_space {l : Line} (h : l.all isPySpace = true) :
    pyStrip l = [] := by
  have h1 : l.dropWhile isPySpace = [] := by
    rw [List.dropWhile_eq_nil_iff]
    intro x hx
    exact List.all_eq_true.mp h x hx
  simp [pyStrip, h1]

theorem pyStrip_pad (ws1 ws2 s : Line) (h1 : ws1.all isPySpace = true)
    (h2 : ws2.all isPySpace = true) :
    pyStrip (ws1 ++ s ++ ws2) = pyStrip s := by
  unfold pyStrip
  rw [List.append_assoc, dropWhile_append_all _ h1]
  by_cases hs : s.dropWhile isPySpace = []
  · have hall : (s ++ ws2).dropWhile isPySpace = ws2.dropWhile isPySpace := by
      apply dropWhile_append_all
      rw [List.all_eq_true]
      intro x hx
      exact List.dropWhile_eq_nil_iff.mp hs x hx
    have hws2 : ws2.dropWhile isPySpace = [] := by
      rw [List.dropWhile_eq_nil_iff]
      intro x hx
      exact List.all_eq_true.mp h2 x hx
    rw [hall, hws2, hs]
  · rw [dropWhile_append_ne_nil _ hs, List.reverse_append]
    rw [dropWhile_append_all _ (by simpa using h2)]

theorem ask_yes_no_strip_congr (q : String) (d : Bool) (l1 l2 : Line)
    (rest : List Line) (h : pyStrip l1 = pyStrip l2) :
    ask_yes_no q d (l1 :: rest) = ask_yes_no q d (l2 :: rest) := by
  simp only [ask_yes_no, h]

theorem ask_float_strip_congr (q : String) (d lo hi : ℚ) (l1 l2 : Line)
    (rest : List Line) (h : pyStrip l1 = pyStrip l2) :
    ask_float q d lo hi (l1 :: rest) = ask_float q d lo hi (l2 :: rest) := by
  simp only [ask_float, h]

theorem ask_int_strip_congr (q : String) (d mi : ℤ) (l1 l2 : Line)
    (rest : List Line) (h : pyStrip l1 = pyStrip l2) :
    ask_int q d mi (l1 :: rest) = ask_int q d mi (l2 :: rest) := by
  simp only [ask_int, h]

/-- A line ask_float rejects: nonempty after stripping, and either not a
number at all or a number outside the bounds. -/
def floatRejects (lo hi : ℚ) (m : Line) : Prop :=
  pyStrip m ≠ [] ∧ (pyFloat? (pyStrip m) = none ∨
    ∃ w, pyFloat? (pyStrip m) = some w ∧ ¬(lo ≤ w ∧ w ≤ hi))

/-- A line ask_int rejects: nonempty after stripping, and either not an
integer or an integer below the bound. -/
def intRejects (mi : ℤ) (m : Line) : Prop :=
  pyStrip m ≠ [] ∧ (pyInt? (pyStrip m) = none ∨
    ∃ w, pyInt? (pyStrip m) = some w ∧ ¬ mi ≤ w)

theorem ask_float_skips_rejected (q : String) (d lo hi : ℚ) (pre : List Line)
    (input : List Line) (hpre : ∀ m ∈ pre, floatRejects lo hi m) :
    (ask_float q d lo hi (pre ++ input)).2 = (ask_float q d lo hi input).2 := by
  induction pre with
  | nil => rfl
  | cons m t ih =>
    obtain ⟨h0, hc⟩ := hpre m (List.mem_cons_self m t)
    have ht : ∀ x ∈ t, floatRejects lo hi x := fun x hx =>
      hpre x (List.mem_cons_of_mem m hx)
    rw [List.cons_append]
    rcases hc with hn | ⟨w, hw, hr⟩
    · rw [ask_float_cons_nonnum q d lo hi m (t ++ input) h0 hn]
      exact ih ht
    · rw [ask_float_cons_range q d lo hi w m (t ++ input) h0 hw hr]
      exact ih ht

theorem ask_int_skips_rejected (q : String) (d mi : ℤ) (pre : List Line)
    (input : List Line) (hpre : ∀ m ∈ pre, intRejects mi m) :
    (ask_int q d mi (pre ++ input)).2 = (ask_int q d mi input).2 := by
  induction pre with
  | nil => rfl
  | cons m t ih =>
    obtain ⟨h0, hc⟩ := hpre m (List.mem_cons_self m t)
    have ht : ∀ x ∈ t, intRejects mi x := fun x hx =>
      hpre x (List.mem_cons_of_mem m hx)
    rw [List.cons_append]
    rcases hc with hn | ⟨w, hw, hr⟩
    · rw [ask_int_cons_nonnum q d mi m (t ++ input) h0 hn]
      exact ih ht
    · rw [ask_int_cons_range q d mi w m (t ++ input) h0 hw hr]
      exact ih ht

theorem ask_float_sound (q : String) (d lo hi : ℚ) (input : List Line)
    (out : List ErrMsg) (v : ℚ) (rest : List Line)
    (h : ask_float q d lo hi input = (out, some (v, rest))) :
    v = d ∨ (lo ≤ v ∧ v ≤ hi) := by
  induction input generalizing out with
  | nil => simp [ask_float] at h
  | cons l t ih =>
    by_cases h0 : pyStrip l = []
    · rw [ask_float_cons_empty q d lo hi l t h0] at h
      left
      exact ((Prod.mk.injEq _ _ _ _).mp h).2 |> fun hh =>
        (Option.some.injEq _ _).mp hh |> fun hh => (Prod.mk.injEq _ _ _ _).mp hh |>.1.symm
    · match hp : pyFloat? (pyStrip l) with
      | some w =>
        by_cases hr : lo ≤ w ∧ w ≤ hi
        · rw [ask_float_cons_valid q d lo hi w l t h0 hp hr.1 hr.2] at h
          have : w = v := by
            have := ((Prod.mk.injEq _ _ _ _).mp h).2
            exact ((Prod.mk.injEq _ _ _ _).mp ((Option.some.injEq _ _).mp this)).1
          right
          rw [← this]
          exact hr
        · rw [ask_float_cons_range q d lo hi w l t h0 hp hr] at h
          have h2 := ((Prod.mk.injEq _ _ _ _).mp h).2
          exact ih (ask_float q d lo hi t).1 (by rw [← h2])
      | none =>
        rw [ask_float_cons_nonnum q d lo hi l t h0 hp] at h
        have h2 := ((Prod.mk.injEq _ _ _ _).mp h).2
        exact ih (ask_float q d lo hi t).1 (by rw [← h2])

theorem ask_int_sound (q : String) (d mi : ℤ) (input : List Line)
    (out : List ErrMsg) (v : ℤ) (rest : List Line)
    (h : ask_int q d mi input = (out, some (v, rest))) :
    v = d ∨ mi ≤ v := by
  induction input generalizing out with
  | nil => simp [ask_int] at h
  | cons l t ih =>
    by_cases h0 : pyStrip l = []
    · rw [ask_int_cons_empty q d mi l t h0] at h
      left
      have := ((Prod.mk.injEq _ _ _ _).mp h).2
      exact ((Prod.mk.injEq _ _ _ _).mp ((Option.some.injEq _ _).mp this)).1.symm
    · match hp : pyInt? (pyStrip l) with
      | some w =>
        by_cases hr : mi ≤ w
        · rw [ask_int_cons_valid q d mi w l t h0 hp hr] at h
          have hw : w = v := by
            have := ((Prod.mk.injEq _ _ _ _).mp h).2
            exact ((Prod.mk.injEq _ _ _ _).mp ((Option.some.injEq _ _).mp this)).1
          right
          rw [← hw]
          exact hr
        · rw [ask_int_cons_range q d mi w l t h0 hp hr] at h
          have h2 := ((Prod.mk.injEq _ _ _ _).mp h).2
          exact ih (ask_int q d mi t).1 (by rw [← h2])
      | none =>
        rw [ask_int_cons_nonnum q d mi l t h0 hp] at h
        have h2 := ((Prod.mk.injEq _ _ _ _).mp h).2
        exact ih (ask_int q d mi t).1 (by rw [← h2])

/-- Claim C3: an empty first input line makes the bounded float prompt and
the bounded integer prompt return exactly the supplied default — for every
default, also one outside the bounds — with no range check applied to
it. -/
theorem bounded_prompt_empty_default (qf qi : String) (d lo hi : ℚ)
    (di mi : ℤ) (rest : List Line) :
    ask_float qf d lo hi ([] :: rest) = ([], some (d, rest)) ∧
    ask_int qi di mi ([] :: rest) = ([], some (di, rest)) :=
  ⟨ask_float_cons_empty qf d lo hi [] rest rfl,
   ask_int_cons_empty qi di mi [] rest rfl⟩

/-- Claim C5: ask_yes_no maps the case-insensitive tokens t, tak, y and
yes to true and n, nie and no to false, returns the supplied default on
empty input, and on any other token never returns on that line: it prints
the error message and reads the next line. -/
theorem ask_yes_no_token_map (q : String) (d : Bool) (l : Line)
    (rest : List Line) :
    (pyLower (pyStrip l) = ['t'] ∨ pyLower (pyStrip l) = ['t', 'a', 'k'] ∨
      pyLower (pyStrip l) = ['y'] ∨ pyLower (pyStrip l) = ['y', 'e', 's'] →
      ask_yes_no q d (l :: rest) = ([], some (true, rest))) ∧
    (pyLower (pyStrip l) = ['n'] ∨ pyLower (pyStrip l) = ['n', 'i', 'e'] ∨
      pyLower (pyStrip l) = ['n', 'o'] →
      ask_yes_no q d (l :: rest) = ([], some (false, rest))) ∧
    (pyStrip l = [] → ask_yes_no q d (l :: rest) = ([], some (d, rest))) ∧
    (pyStrip l ≠ [] →
      pyLower (pyStrip l) ∉ [['t'], ['t', 'a', 'k'], ['y'], ['y', 'e', 's'],
        ['n'], ['n', 'i', 'e'], ['n', 'o']] →
      ask_yes_no q d (l :: rest) =
        (ErrMsg.answerTorN :: (ask_yes_no q d rest).1,
          (ask_yes_no q d rest).2)) := by
  refine ⟨fun h => ask_yes_no_cons_yes q d l rest h,
    fun h => ask_yes_no_cons_no q d l rest h,
    fun h => ask_yes_no_cons_empty q d l rest h,
    fun h0 hmem => ?_⟩
  simp only [List.mem_cons, List.mem_singleton, not_or] at hmem
  obtain ⟨h1, h2, h3, h4, h5, h6, h7, _⟩ := hmem
  exact ask_yes_no_cons_other q d l rest h0 h1 h2 h3 h4 h5 h6 h7

/-- Witness for ask_yes_no_token_map: TAK maps to true, a padded n to
false, the empty line to the default and xyz re-prompts. -/
theorem ask_yes_no_token_map_w :
    ask_yes_no "q" false ["TAK".toList] = ([], some (true, [])) ∧
    ask_yes_no "q" true [" n ".toList] = ([], some (false, [])) ∧
    ask_yes_no "q" true [[]] = ([], some (true, [])) ∧
    ask_yes_no "q" true ["xyz".toList, []] =
      (ErrMsg.answerTorN :: (ask_yes_no "q" true [[]]).1,
        (ask_yes_no "q" true [[]]).2) :=
  ⟨(ask_yes_no_token_map "q" false "TAK".toList []).1 (by decide),
   (ask_yes_no_token_map "q" true " n ".toList []).2.1 (by decide),
   (ask_yes_no_token_map "q" true [] []).2.2.1 (by decide),
   (ask_yes_no_token_map "q" true "xyz".toList [[]]).2.2.2 (by decide)
     (by decide)⟩

/-- Claim C10: the three prompt primitives strip surrounding whitespace
before interpreting a line: a whitespace-only line acts as empty input and
returns the default, and a line padded with whitespace on either side
behaves exactly like the bare line. -/
theorem prompts_strip_whitespace (qy qf qi : String) (db : Bool)
    (d lo hi : ℚ) (di mi : ℤ) (l ws1 ws2 s : Line) (rest : List Line)
    (hl : l.all isPySpace = true) (hw1 : ws1.all isPySpace = true)
    (hw2 : ws2.all isPySpace = true) :
    ask_yes_no qy db (l :: rest) = ([], some (db, rest)) ∧
    ask_float qf d lo hi (l :: rest) = ([], some (d, rest)) ∧
    ask_int qi di mi (l :: rest) = ([], some (di, rest)) ∧
    ask_yes_no qy db ((ws1 ++ s ++ ws2) :: rest) =
      ask_yes_no qy db (s :: rest) ∧
    ask_float qf d lo hi ((ws1 ++ s ++ ws2) :: rest) =
      ask_float qf d lo hi (s :: rest) ∧
    ask_int qi di mi ((ws1 ++ s ++ ws2) :: rest) =
      ask_int qi di mi (s :: rest) := by
  have h0 : pyStrip l = [] := pyStrip_all_space hl
  have hp : pyStrip (ws1 ++ s ++ ws2) = pyStrip s := pyStrip_pad ws1 ws2 s hw1 hw2
  exact ⟨ask_yes_no_cons_empty qy db l rest h0,
    ask_float_cons_empty qf d lo hi l rest h0,
    ask_int_cons_empty qi di mi l rest h0,
    ask_yes_no_strip_congr qy db _ s rest hp,
    ask_float_strip_congr qf d lo hi _ s rest hp,
    ask_int_strip_congr qi di mi _ s rest hp⟩

/-- Witness for prompts_strip_whitespace: a space-only line returns the
defaults, and a TAK or number padded with blanks acts as if typed bare. -/
theorem prompts_strip_whitespace_w :
    ask_yes_no "a" true ([' '] :: []) = ([], some (true, [])) ∧
    ask_float "b" (mkRat 7 10) 0 2 ([' '] :: []) =
      ([], some (mkRat 7 10, [])) ∧
    ask_int "c" 40 0 ([' '] :: []) = ([], some (40, [])) ∧
    ask_yes_no "a" true (([' '] ++ "TAK".toList ++ ['\t']) :: []) =
      ask_yes_no "a" true ("TAK".toList :: []) ∧
    ask_float "b" (mkRat 7 10) 0 2 (([' '] ++ "1.5".toList ++ ['\t']) :: []) =
      ask_float "b" (mkRat 7 10) 0 2 ("1.5".toList :: []) ∧
    ask_int "c" 40 0 (([' '] ++ "7".toList ++ ['\t']) :: []) =
      ask_int "c" 40 0 ("7".toList :: []) := by
  have h := prompts_strip_whitespace "a" "b" "c" true (mkRat 7 10) 0 2 40 0
    [' '] [' '] ['\t'] "TAK".toList [] (by decide) (by decide) (by decide)
  refine ⟨h.1, h.2.1, h.2.2.1, h.2.2.2.1, ?_, ?_⟩
  · exact (prompts_strip_whitespace "a" "b" "c" true (mkRat 7 10) 0 2 40 0
      [' '] [' '] ['\t'] "1.5".toList [] (by decide) (by decide)
      (by decide)).2.2.2.2.1
  · exact (prompts_strip_whitespace "a" "b" "c" true (mkRat 7 10) 0 2 40 0
      [' '] [' '] ['\t'] "7".toList [] (by decide) (by decide)
      (by decide)).2.2.2.2.2

/-- Claim C4: the bounded float prompt returns the value of the first
line that parses as a number inside [min_val, max_val] (the integer
prompt the first integer at least min_val), and a non-numeric or
out-of-range line never produces the returned value: it only adds its
error message and hands control to the following lines. -/
theorem bounded_prompt_first_valid (qf qi : String) (d lo hi : ℚ)
    (di mi : ℤ) (l : Line) (pre rest : List Line) :
    (∀ v : ℚ, pyStrip l ≠ [] → pyFloat? (pyStrip l) = some v → lo ≤ v →
      v ≤ hi → ask_float qf d lo hi (l :: rest) = ([], some (v, rest))) ∧
    (pyStrip l ≠ [] → pyFloat? (pyStrip l) = none →
      ask_float qf d lo hi (l :: rest) =
        (ErrMsg.invalidNumber :: (ask_float qf d lo hi rest).1,
          (ask_float qf d lo hi rest).2)) ∧
    (∀ v : ℚ, pyStrip l ≠ [] → pyFloat? (pyStrip l) = some v →
      ¬(lo ≤ v ∧ v ≤ hi) →
      ask_float qf d lo hi (l :: rest) =
        (ErrMsg.valueBetween lo hi :: (ask_float qf d lo hi rest).1,
          (ask_float qf d lo hi rest).2)) ∧
    (∀ v : ℚ, (∀ m ∈ pre, floatRejects lo hi m) → pyStrip l ≠ [] →
      pyFloat? (pyStrip l) = some v → lo ≤ v → v ≤ hi →
      (ask_float qf d lo hi (pre ++ l :: rest)).2 = some (v, rest)) ∧
    (∀ v : ℤ, pyStrip l ≠ [] → pyInt? (pyStrip l) = some v → mi ≤ v →
      ask_int qi di mi (l :: rest) = ([], some (v, rest))) ∧
    (pyStrip l ≠ [] → pyInt? (pyStrip l) = none →
      ask_int qi di mi (l :: rest) =
        (ErrMsg.invalidInteger :: (ask_int qi di mi rest).1,
          (ask_int qi di mi rest).2)) ∧
    (∀ v : ℤ, pyStrip l ≠ [] → pyInt? (pyStrip l) = some v → ¬ mi ≤ v →
      ask_int qi di mi (l :: rest) =
        (ErrMsg.valueAtLeast mi :: (ask_int qi di mi rest).1,
          (ask_int qi di mi rest).2)) ∧
    (∀ v : ℤ, (∀ m ∈ pre, intRejects mi m) → pyStrip l ≠ [] →
      pyInt? (pyStrip l) = some v → mi ≤ v →
      (ask_int qi di mi (pre ++ l :: rest)).2 = some (v, rest)) := by
  refine ⟨fun v h0 hp h1 h2 => ask_float_cons_valid qf d lo hi v l rest h0 hp h1 h2,
    fun h0 hp => ask_float_cons_nonnum qf d lo hi l rest h0 hp,
    fun v h0 hp hr => ask_float_cons_range qf d lo hi v l rest h0 hp hr,
    fun v hpre h0 hp h1 h2 => ?_,
    fun v h0 hp h1 => ask_int_cons_valid qi di mi v l rest h0 hp h1,
    fun h0 hp => ask_int_cons_nonnum qi di mi l rest h0 hp,
    fun v h0 hp hr => ask_int_cons_range qi di mi v l rest h0 hp hr,
    fun v hpre h0 hp h1 => ?_⟩
  · rw [ask_float_skips_rejected qf d lo hi pre (l :: rest) hpre,
      ask_float_cons_valid qf d lo hi v l rest h0 hp h1 h2]
  · rw [ask_int_skips_rejected qi di mi pre (l :: rest) hpre,
      ask_int_cons_valid qi di mi v l rest h0 hp h1]

/-- Witness for bounded_prompt_first_valid: after a non-numeric line and
an out-of-range line, 1.5 is returned by the float prompt, and after a
too-small line, 7 is returned by the integer prompt. -/
theorem bounded_prompt_first_valid_w :
    (ask_float "q" (mkRat 7 10) 0 2
      (["abc".toList, "9.9".toList] ++ "1.5".toList :: [])).2 =
      some (mkRat 3 2, []) ∧
    (ask_int "r" 40 0 (["-5".toList] ++ "7".toList :: [])).2 =
      some (7, []) := by
  constructor
  · apply (bounded_prompt_first_valid "q" "r" (mkRat 7 10) 0 2 40 0
      "1.5".toList ["abc".toList, "9.9".toList] []).2.2.2.1 (mkRat 3 2)
    · intro m hm
      rcases List.mem_cons.mp hm with rfl | hm2
      · exact ⟨by decide, Or.inl (by decide)⟩
      · rcases List.mem_cons.mp hm2 with rfl | hm3
        · exact ⟨by decide, Or.inr ⟨mkRat 99 10, by decide, by decide⟩⟩
        · exact absurd hm3 (List.not_mem_nil m)
    · decide
    · decide
    · decide
    · decide
  · apply (bounded_prompt_first_valid "q" "r" (mkRat 7 10) 0 2 40 0
      "7".toList ["-5".toList] []).2.2.2.2.2.2.2 7
    · intro m hm
      rcases List.mem_cons.mp hm with rfl | hm2
      · exact ⟨by decide, Or.inr ⟨-5, by decide, by decide⟩⟩
      · exact absurd hm2 (List.not_mem_nil m)
    · decide
    · decide
    · decide

/-- Claim C6: whenever the configure gate of ask_for_generation_params
resolves to a negative answer, the function returns exactly the three
current values, consuming no input beyond the gate. -/
theorem gen_params_decline (ct cp : ℚ) (ck : ℤ) (input rest : List Line)
    (out : List ErrMsg)
    (h : ask_yes_no gateQuestion false input = (out, some (false, rest))) :
    ask_for_generation_params ct cp ck input =
      (out, some (⟨ct, cp, ck⟩, rest)) := by
  simp [ask_for_generation_params, h]

/-- Witness for gen_params_decline: current values 0.7, 0.9 and 40 with a
no answer yield exactly those three values. -/
theorem gen_params_decline_w :
    ask_for_generation_params (mkRat 7 10) (mkRat 9 10) 40 ["n".toList] =
      ([], some (⟨mkRat 7 10, mkRat 9 10, 40⟩, [])) :=
  gen_params_decline (mkRat 7 10) (mkRat 9 10) 40 ["n".toList] [] []
    (by decide)

/-- Claim C9: if the current values satisfy the documented bounds, then
however the user answers, any record returned by
ask_for_generation_params satisfies temperature in [0, 2], top_p in
[0, 1] and top_k at least 0. -/
theorem gen_params_invariant (ct cp : ℚ) (ck : ℤ) (input : List Line)
    (out : List ErrMsg) (p : GenParams) (rest : List Line)
    (h1 : 0 ≤ ct) (h2 : ct ≤ 2) (h3 : 0 ≤ cp) (h4 : cp ≤ 1) (h5 : 0 ≤ ck)
    (h : ask_for_generation_params ct cp ck input = (out, some (p, rest))) :
    0 ≤ p.temperature ∧ p.temperature ≤ 2 ∧ 0 ≤ p.top_p ∧ p.top_p ≤ 1 ∧
      0 ≤ p.top_k := by
  simp only [ask_for_generation_params] at h
  rcases hg : ask_yes_no gateQuestion false input with ⟨o0, (_ | ⟨b, r0⟩)⟩
  · rw [hg] at h
    simp at h
  · rw [hg] at h
    cases b with
    | false =>
      simp at h
      obtain ⟨-, hp, -⟩ := h
      rw [← hp]
      exact ⟨h1, h2, h3, h4, h5⟩
    | true =>
      simp only [Bool.not_true, Bool.false_eq_true, if_false] at h
      rcases hf1 : ask_float temperatureQuestion ct 0 2 r0 with
        ⟨o1, (_ | ⟨t1, r1⟩)⟩
      · rw [hf1] at h
        simp at h
      · rw [hf1] at h
        simp only [List.append_assoc] at h
        rcases hf2 : ask_float topPQuestion cp 0 1 r1 with
          ⟨o2, (_ | ⟨p1, r2⟩)⟩
        · rw [hf2] at h
          simp at h
        · rw [hf2] at h
          simp only [List.append_assoc] at h
          rcases hf3 : ask_int topKQuestion ck 0 r2 with
            ⟨o3, (_ | ⟨k1, r3⟩)⟩
          · rw [hf3] at h
            simp at h
          · rw [hf3] at h
            simp at h
            obtain ⟨-, hp, -⟩ := h
            rw [← hp]
            have hT : 0 ≤ t1 ∧ t1 ≤ 2 := by
              rcases ask_float_sound temperatureQuestion ct 0 2 r0 o1 t1 r1
                hf1 with rfl | hE
              · exact ⟨h1, h2⟩
              · exact hE
            have hP : 0 ≤ p1 ∧ p1 ≤ 1 := by
              rcases ask_float_sound topPQuestion cp 0 1 r1 o2 p1 r2 hf2 with
                rfl | hE
              · exact ⟨h3, h4⟩
              · exact hE
            have hK : 0 ≤ k1 := by
              rcases ask_int_sound topKQuestion ck 0 r2 o3 k1 r3 hf3 with
                rfl | hE
              · exact h5
              · exact hE
            exact ⟨hT.1, hT.2, hP.1, hP.2, hK⟩

/-- Witness for gen_params_invariant: a configuring run with inputs 1.5,
.5 and 7 from the defaults 0.7, 0.9, 40 yields a record inside all three
bounds. -/
theorem gen_params_invariant_w :
    0 ≤ (⟨mkRat 3 2, mkRat 1 2, 7⟩ : GenParams).temperature ∧
      (⟨mkRat 3 2, mkRat 1 2, 7⟩ : GenParams).temperature ≤ 2 ∧
      0 ≤ (⟨mkRat 3 2, mkRat 1 2, 7⟩ : GenParams).top_p ∧
      (⟨mkRat 3 2, mkRat 1 2, 7⟩ : GenParams).top_p ≤ 1 ∧
      0 ≤ (⟨mkRat 3 2, mkRat 1 2, 7⟩ : GenParams).top_k :=
  gen_params_invariant (mkRat 7 10) (mkRat 9 10) 40
    ["t".toList, "1.5".toList, ".5".toList, "7".toList] []
    ⟨mkRat 3 2, mkRat 1 2, 7⟩ [] (by decide) (by decide) (by decide)
    (by decide) (by decide) (by decide)

/-- Claim C1: with an existing .gguf model path and every other field at a
valid value, LlamaConfig construction accepts llama_temperature exactly
when it lies in [0, 2] (so 2.0 succeeds and 2.5 fails) and accepts
llama_gpu_layers exactly when it is at least -1 (so -1 succeeds and -2
fails), boundaries included. -/
theorem llama_config_ranges (fs : Line → Bool) (name path : Line)
    (hex : fs path = true)
    (hsuf : List.isSuffixOf ['.', 'g', 'g', 'u', 'f'] path = true) :
    (∀ temp : ℚ,
      accepted (mkLlamaConfig fs name path 1 2048 temp (mkRat 9 10) 40) =
        true ↔ 0 ≤ temp ∧ temp ≤ 2) ∧
    (∀ gl : ℤ,
      accepted (mkLlamaConfig fs name path gl 2048 (mkRat 7 10)
        (mkRat 9 10) 40) = true ↔ -1 ≤ gl) := by
  have hok : validate_model_path fs path = .ok path := by
    simp [validate_model_path, hex, hsuf]
  constructor
  · intro temp
    simp only [mkLlamaConfig, hok]
    rw [if_neg (by decide : ¬ ((1 : ℤ) < -1)),
      if_neg (by decide : ¬ ((2048 : ℤ) < 1))]
    by_cases ht : temp < 0 ∨ 2 < temp
    · rw [if_pos ht]
      simp only [accepted, Bool.false_eq_true, false_iff, not_and]
      rcases ht with ht | ht
      · exact fun hc => absurd ht (not_lt.mpr hc)
      · exact fun _ hc => absurd ht (not_lt.mpr hc)
    · rw [if_neg ht,
        if_neg (by decide : ¬ (mkRat 9 10 < 0 ∨ 1 < mkRat 9 10)),
        if_neg (by decide : ¬ ((40 : ℤ) < 0))]
      push_neg at ht
      simp only [accepted, true_iff]
      exact ht
  · intro gl
    simp only [mkLlamaConfig, hok]
    by_cases hg : gl < -1
    · rw [if_pos hg]
      simp only [accepted, Bool.false_eq_true, false_iff, not_le]
      exact hg
    · rw [if_neg hg,
        if_neg (by decide : ¬ ((2048 : ℤ) < 1)),
        if_neg (by decide : ¬ (mkRat 7 10 < 0 ∨ 2 < mkRat 7 10)),
        if_neg (by decide : ¬ (mkRat 9 10 < 0 ∨ 1 < mkRat 9 10)),
        if_neg (by decide : ¬ ((40 : ℤ) < 0))]
      simp only [accepted, true_iff]
      exact not_lt.mp hg

/-- Witness for llama_config_ranges: on an existing path /m.gguf,
temperature 2.0 is accepted, 2.5 rejected, gpu_layers -1 accepted and -2
rejected. -/
theorem llama_config_ranges_w :
    accepted (mkLlamaConfig (fun _ => true) "m".toList "/m.gguf".toList
      1 2048 2 (mkRat 9 10) 40) = true ∧
    accepted (mkLlamaConfig (fun _ => true) "m".toList "/m.gguf".toList
      1 2048 (mkRat 5 2) (mkRat 9 10) 40) = false ∧
    accepted (mkLlamaConfig (fun _ => true) "m".toList "/m.gguf".toList
      (-1) 2048 (mkRat 7 10) (mkRat 9 10) 40) = true ∧
    accepted (mkLlamaConfig (fun _ => true) "m".toList "/m.gguf".toList
      (-2) 2048 (mkRat 7 10) (mkRat 9 10) 40) = false := by
  have h := llama_config_ranges (fun _ => true) "m".toList "/m.gguf".toList
    rfl (by decide)
  refine ⟨(h.1 2).mpr (by decide), ?_, (h.2 (-1)).mpr (by decide), ?_⟩
  · exact Bool.eq_false_iff.mpr fun hc =>
      absurd ((h.1 (mkRat 5 2)).mp hc) (by decide)
  · exact Bool.eq_false_iff.mpr fun hc =>
      absurd ((h.2 (-2)).mp hc) (by decide)

/-- Claim C2: validate_model_path checks existence before the extension —
a missing path fails with the file-does-not-exist error whatever its
suffix, an existing path without the .gguf suffix fails with the
extension error, and an existing .gguf path is accepted unchanged — and
any validator failure makes the whole construction return that error, so
no configuration record is produced. -/
theorem validate_model_path_order (fs : Line → Bool) (path : Line) :
    (fs path = false →
      validate_model_path fs path = .error (.fileDoesNotExist path)) ∧
    (fs path = true →
      List.isSuffixOf ['.', 'g', 'g', 'u', 'f'] path = false →
      validate_model_path fs path = .error .notGguf) ∧
    (fs path = true →
      List.isSuffixOf ['.', 'g', 'g', 'u', 'f'] path = true →
      validate_model_path fs path = .ok path) ∧
    (∀ (name : Line) (gl cs : ℤ) (t p : ℚ) (k : ℤ) (e : ValErr),
      validate_model_path fs path = .error e →
      mkLlamaConfig fs name path gl cs t p k = .error e) :=
  ⟨fun h => by simp [validate_model_path, h],
   fun h hs => by simp [validate_model_path, h, hs],
   fun h hs => by simp [validate_model_path, h, hs],
   fun name gl cs t p k e he => by simp [mkLlamaConfig, he]⟩

/-- Witness for validate_model_path_order: a missing .gguf path fails
with the existence error and makes construction fail the same way, an
existing .bin path fails with the extension error, and an existing .gguf
path passes unchanged. -/
theorem validate_model_path_order_w :
    validate_model_path (fun _ => false) "/a.gguf".toList =
      .error (.fileDoesNotExist "/a.gguf".toList) ∧
    mkLlamaConfig (fun _ => false) "m".toList "/a.gguf".toList 1 2048
      (mkRat 7 10) (mkRat 9 10) 40 =
      .error (.fileDoesNotExist "/a.gguf".toList) ∧
    validate_model_path (fun _ => true) "/a.bin".toList =
      .error .notGguf ∧
    validate_model_path (fun _ => true) "/a.gguf".toList =
      .ok "/a.gguf".toList := by
  have h1 := (validate_model_path_order (fun _ => false) "/a.gguf".toList).1 rfl
  refine ⟨h1, ?_, ?_, ?_⟩
  · exact (validate_model_path_order (fun _ => false) "/a.gguf".toList).2.2.2
      "m".toList 1 2048 (mkRat 7 10) (mkRat 9 10) 40 _ h1
  · exact (validate_model_path_order (fun _ => true) "/a.bin".toList).2.1
      rfl (by decide)
  · exact (validate_model_path_order (fun _ => true) "/a.gguf".toList).2.2.1
      rfl (by decide)

theorem filter_eq_nil_of_all_false {p : Line × ModelInfo → Bool}
    {l : List (Line × ModelInfo)} (h : ∀ a ∈ l, p a = false) :
    l.filter p = [] := by
  induction l with
  | nil => rfl
  | cons a t ih =>
    simp [List.filter_cons, h a (List.mem_cons_self a t),
      ih fun x hx => h x (List.mem_cons_of_mem a hx)]

/-- Claim C7: when none of the three hardcoded catalog paths exists,
ask_for_model_choice emits the warning and returns the no-selection value
without reading anything from the input stream. -/
theorem model_choice_no_models (fs : Line → Bool) (home : Line)
    (input : List Line) (h : ∀ km ∈ models home, fs km.2.path = false) :
    ask_for_model_choice fs home input =
      ([ErrMsg.noModelsFound], some (none, input)) := by
  have hf : (models home).filter (fun kv => fs kv.2.path) = [] :=
    filter_eq_nil_of_all_false h
  simp [ask_for_model_choice, hf]

/-- Witness for model_choice_no_models: with an empty filesystem the
warning is emitted and the pending input line is left unread. -/
theorem model_choice_no_models_w :
    ask_for_model_choice (fun _ => false) "/h".toList ["9".toList] =
      ([ErrMsg.noModelsFound], some (none, ["9".toList])) :=
  model_choice_no_models (fun _ => false) "/h".toList ["9".toList]
    (fun _ _ => rfl)

theorem lookup_filter_of_lookup_none {p : Line × ModelInfo → Bool}
    {l : List (Line × ModelInfo)} {k : Line} (h : l.lookup k = none) :
    (l.filter p).lookup k = none := by
  induction l with
  | nil => rfl
  | cons a t ih =>
    obtain ⟨k1, b⟩ := a
    by_cases hk : (k == k1) = true
    · rw [List.lookup_cons, hk] at h
      exact Option.noConfusion h
    · have hk2 : (k == k1) = false := by simpa using hk
      rw [List.lookup_cons, hk2] at h
      by_cases hp : p (k1, b) = true
      · rw [List.filter_cons, if_pos hp, List.lookup_cons, hk2]
        exact ih h
      · have hp2 : p (k1, b) = false := by simpa using hp
        rw [List.filter_cons, if_neg (by simp [hp2])]
        exact ih h

theorem lookup_filter_of_pred_false {p : Line × ModelInfo → Bool}
    {l : List (Line × ModelInfo)} {k : Line}
    (h : ∀ b, (k, b) ∈ l → p (k, b) = false) :
    (l.filter p).lookup k = none := by
  induction l with
  | nil => rfl
  | cons a t ih =>
    obtain ⟨k1, b⟩ := a
    have ht : ∀ b2, (k, b2) ∈ t → p (k, b2) = false := fun b2 hb =>
      h b2 (List.mem_cons_of_mem _ hb)
    by_cases hk : k = k1
    · have hp : p (k1, b) = false := by
        rw [← hk]
        exact h b (by rw [hk]; exact List.mem_cons_self _ _)
      rw [List.filter_cons, if_neg (by simp [hp])]
      exact ih ht
    · have hk2 : (k == k1) = false := by simpa using hk
      by_cases hp : p (k1, b) = true
      · rw [List.filter_cons, if_pos hp, List.lookup_cons, hk2]
        exact ih ht
      · have hp2 : p (k1, b) = false := by simpa using hp
        rw [List.filter_cons, if_neg (by simp [hp2])]
        exact ih ht

theorem models_lookup_keys {home k : Line} {m : ModelInfo}
    (h : (models home).lookup k = some m) :
    (k = ['1'] ∨ k = ['2'] ∨ k = ['3']) ∧
      ∀ b, (k, b) ∈ models home → b = m := by
  by_cases h1 : k = ['1']
  · subst h1
    simp only [models, List.lookup_cons, beq_self_eq_true] at h
    refine ⟨Or.inl rfl, fun b hb => ?_⟩
    simp only [models, List.mem_cons, List.not_mem_nil, or_false,
      Prod.mk.injEq] at hb
    rcases hb with ⟨-, hb⟩ | ⟨hb, -⟩ | ⟨hb, -⟩
    · rw [hb]
      exact Option.some.inj h
    · exact absurd hb (by decide)
    · exact absurd hb (by decide)
  · by_cases h2 : k = ['2']
    · subst h2
      simp only [models, List.lookup_cons, beq_self_eq_true,
        (by decide : ((['2'] : Line) == ['1']) = false)] at h
      refine ⟨Or.inr (Or.inl rfl), fun b hb => ?_⟩
      simp only [models, List.mem_cons, List.not_mem_nil, or_false,
        Prod.mk.injEq] at hb
      rcases hb with ⟨hb, -⟩ | ⟨-, hb⟩ | ⟨hb, -⟩
      · exact absurd hb (by decide)
      · rw [hb]
        exact Option.some.inj h
      · exact absurd hb (by decide)
    · by_cases h3 : k = ['3']
      · subst h3
        simp only [models, List.lookup_cons, beq_self_eq_true,
          (by decide : ((['3'] : Line) == ['1']) = false),
          (by decide : ((['3'] : Line) == ['2']) = false)] at h
        refine ⟨Or.inr (Or.inr rfl), fun b hb => ?_⟩
        simp only [models, List.mem_cons, List.not_mem_nil, or_false,
          Prod.mk.injEq] at hb
        rcases hb with ⟨hb, -⟩ | ⟨hb, -⟩ | ⟨-, hb⟩
        · exact absurd hb (by decide)
        · exact absurd hb (by decide)
        · rw [hb]
          exact Option.some.inj h
      · exfalso
        have e1 : (k == ['1']) = false := by simpa using h1
        have e2 : (k == ['2']) = false := by simpa using h2
        have e3 : (k == ['3']) = false := by simpa using h3
        simp only [models, List.lookup_cons, e1, e2, e3] at h
        simp [List.lookup] at h

/-- Claim C8: once the choice loop is reached (some catalog model
exists), a token that is a key of the full catalog whose file is missing
yields the error naming that missing path (plus the download hint) and a
re-prompt on the remaining input, while a token outside the catalog other
than the 0 sentinel yields the generic invalid-choice error and a
re-prompt; neither ever returns a selection from that line. -/
theorem model_choice_bad_token (fs : Line → Bool) (home : Line) (l : Line)
    (rest : List Line)
    (hne : ((models home).filter (fun kv => fs kv.2.path)).isEmpty =
      false) :
    (∀ m : ModelInfo, (models home).lookup (pyStrip l) = some m →
      fs m.path = false →
      ask_for_model_choice fs home (l :: rest) =
        (ErrMsg.modelMissing m.path :: ErrMsg.downloadFirst ::
            (ask_for_model_choice fs home rest).1,
          (ask_for_model_choice fs home rest).2)) ∧
    (pyStrip l ≠ ['0'] → (models home).lookup (pyStrip l) = none →
      ask_for_model_choice fs home (l :: rest) =
        (ErrMsg.invalidChoice :: (ask_for_model_choice fs home rest).1,
          (ask_for_model_choice fs home rest).2)) := by
  have hunf : ∀ inp, ask_for_model_choice fs home inp =
      choice_loop fs (models home)
        ((models home).filter (fun kv => fs kv.2.path)) inp := by
    intro inp
    simp only [ask_for_model_choice]
    rw [if_neg (by simp [hne])]
  constructor
  · intro m hlk hfs
    have hk0 : pyStrip l ≠ ['0'] := by
      intro h0
      rw [h0] at hlk
      have hnone : (models home).lookup (['0'] : Line) = none := by
        simp only [models, List.lookup_cons,
          (by decide : ((['0'] : Line) == ['1']) = false),
          (by decide : ((['0'] : Line) == ['2']) = false),
          (by decide : ((['0'] : Line) == ['3']) = false)]
        rfl
      rw [hnone] at hlk
      exact Option.noConfusion hlk
    have hav : ((models home).filter
        (fun kv => fs kv.2.path)).lookup (pyStrip l) = none := by
      apply lookup_filter_of_pred_false
      intro b hb
      have hbm := (models_lookup_keys hlk).2 b hb
      rw [hbm]
      exact hfs
    rw [hunf (l :: rest), hunf rest]
    simp only [choice_loop]
    rw [if_neg hk0, hav, hlk]
    simp [hfs]
  · intro hk0 hlk
    have hav := @lookup_filter_of_lookup_none
      (fun kv => fs kv.2.path) (models home) (pyStrip l) hlk
    rw [hunf (l :: rest), hunf rest]
    simp only [choice_loop]
    rw [if_neg hk0, hav, hlk]
    simp

/-- Witness for model_choice_bad_token: with only the second catalog model
on disk, choosing 3 names the missing Llama path and re-prompts, and
choosing 7 gives the generic invalid-choice error and re-prompts. -/
theorem model_choice_bad_token_w :
    ask_for_model_choice
        (fun p => p == expanduser "/h".toList
          "~/models/gemma-2-2b-it-Q8_0.gguf".toList)
        "/h".toList (['3'] :: [['0']]) =
      (ErrMsg.modelMissing (expanduser "/h".toList
            "~/models/Meta-Llama-3.1-8B-Instruct-Q4_K_M.gguf".toList) ::
          ErrMsg.downloadFirst ::
          (ask_for_model_choice
            (fun p => p == expanduser "/h".toList
              "~/models/gemma-2-2b-it-Q8_0.gguf".toList)
            "/h".toList [['0']]).1,
        (ask_for_model_choice
          (fun p => p == expanduser "/h".toList
            "~/models/gemma-2-2b-it-Q8_0.gguf".toList)
          "/h".toList [['0']]).2) ∧
    ask_for_model_choice
        (fun p => p == expanduser "/h".toList
          "~/models/gemma-2-2b-it-Q8_0.gguf".toList)
        "/h".toList (['7'] :: [['0']]) =
      (ErrMsg.invalidChoice ::
          (ask_for_model_choice
            (fun p => p == expanduser "/h".toList
              "~/models/gemma-2-2b-it-Q8_0.gguf".toList)
            "/h".toList [['0']]).1,
        (ask_for_model_choice
          (fun p => p == expanduser "/h".toList
            "~/models/gemma-2-2b-it-Q8_0.gguf".toList)
          "/h".toList [['0']]).2) :=
  ⟨(model_choice_bad_token
      (fun p => p == expanduser "/h".toList
        "~/models/gemma-2-2b-it-Q8_0.gguf".toList)
      "/h".toList ['3'] [['0']] (by decide)).1
    ⟨"Llama 3.1 8B Q4_K_M".toList,
      expanduser "/h".toList
        "~/models/Meta-Llama-3.1-8B-Instruct-Q4_K_M.gguf".toList,
      "~5GB RAM", "⚡ Wolniejszy", "⭐⭐⭐⭐⭐ Najlepsza jakość"⟩
    (by decide) (by decide),
   (model_choice_bad_token
      (fun p => p == expanduser "/h".toList
        "~/models/gemma-2-2b-it-Q8_0.gguf".toList)
      "/h".toList ['7'] [['0']] (by decide)).2
    (by decide) (by decide)⟩
